import Mathlib

set_option maxHeartbeats 1000000

namespace AdGuard

/-! Shallow embedding of the authentication HTTP layer of AdGuardHome
(internal/home/authhttp.go).  Pure data is modelled with Lean structures;
the stateful handlers are modelled as functions from an explicit state and
request to a response, a new state, and a trace of the calls they make into
the rate limiter and credential verifier.  Components of the repository
that are not under src (the rate limiter, the user directory, the session
stores) are modelled from the spec and marked as such in their doc
comments. -/

/-- Bytes of an IPv4 address.  Models netip.Addr restricted to IPv4; the
verified properties do not depend on IPv6 forms, which this model treats as
unparsable. -/
structure IPv4 where
  o1 : Nat
  o2 : Nat
  o3 : Nat
  o4 : Nat
deriving DecidableEq, Repr

/-- Characters before the first occurrence of sep, the first component of
strings.Cut. -/
def takeUntil (sep : Char) : List Char → List Char
  | [] => []
  | c :: cs => if c == sep then [] else c :: takeUntil sep cs

/-- Splits a character list at the first occurrence of sep, returning the
parts before and after it, or none when sep does not occur. -/
def breakAt (sep : Char) : List Char → Option (List Char × List Char)
  | [] => none
  | c :: cs =>
    if c == sep then some ([], cs)
    else (breakAt sep cs).map (fun p => (c :: p.1, p.2))

/-- Splits a character list at the last occurrence of sep. -/
def breakAtLast (sep : Char) (cs : List Char) : Option (List Char × List Char) :=
  (breakAt sep cs.reverse).map (fun p => (p.2.reverse, p.1.reverse))

/-- Splits a character list on every occurrence of sep. -/
def splitOnChar (sep : Char) : List Char → List (List Char)
  | [] => [[]]
  | c :: cs =>
    if c == sep then [] :: splitOnChar sep cs
    else
      match splitOnChar sep cs with
      | [] => [[c]]
      | h :: t => (c :: h) :: t

/-- Decimal digit test. -/
def isDigitCh (c : Char) : Bool := '0' ≤ c && c ≤ '9'

/-- Numeric value of a digit string. -/
def digitsVal (cs : List Char) : Nat := cs.foldl (fun a c => a * 10 + (c.toNat - 48)) 0

/-- Parses one dotted-quad field the way netip.ParseAddr does: one to three
decimal digits, value at most 255, and no leading zero. -/
def parseOctet (cs : List Char) : Option Nat :=
  if cs.isEmpty then none
  else if !cs.all isDigitCh then none
  else if 3 < cs.length then none
  else if cs.head? == some '0' && cs.length != 1 then none
  else if digitsVal cs ≤ 255 then some (digitsVal cs) else none

/-- Models netip.ParseAddr restricted to the IPv4 dotted-quad form. -/
def parseAddr (s : String) : Option IPv4 :=
  match splitOnChar '.' s.data with
  | [a, b, c, d] =>
    match parseOctet a, parseOctet b, parseOctet c, parseOctet d with
    | some x, some y, some z, some w => some ⟨x, y, z, w⟩
    | _, _, _, _ => none
  | _ => none

/-- Canonical textual form of an IPv4 address, as netip.Addr.String prints
it. -/
def IPv4.toStr (a : IPv4) : String :=
  toString a.o1 ++ "." ++ toString a.o2 ++ "." ++ toString a.o3 ++ "." ++ toString a.o4

/-- Models netutil.SplitHost from golibs over net.SplitHostPort, following
the Go control flow: the port starts after the last colon, and a string
with no colon is the missing-port case, recovered by returning the whole
string before any bracket handling.  For a bracket-prefixed string the
first closing bracket must sit just before that last colon; a bracket that
ends the string or is followed by a non-colon is again the recovered
missing-port case, while a non-final colon after it is the too-many-colons
error.  In the accepted bracketed form any further opening bracket, and any
closing bracket after the first, is a stray-bracket error.  For a
non-bracketed string the host is everything before the last colon; a colon
inside it is the too-many-colons error, and any bracket anywhere in the
string is a stray-bracket error, since Go leaves both scan offsets at zero
there.  Only the missing-port error is recovered; every other error is
none. -/
def splitHost (s : String) : Option String :=
  match breakAtLast ':' s.data with
  | none => some s
  | some (before, _afterLast) =>
    match s.data with
    | '[' :: rest =>
      match breakAt ']' rest with
      | none => none
      | some (host, post) =>
        match post with
        | [] => some s
        | ':' :: tailp =>
          if tailp.contains ':' then none
          else if host.contains '[' || tailp.contains '[' then none
          else if tailp.contains ']' then none
          else some (String.mk host)
        | _ :: _ => some s
    | _ =>
      if before.contains ':' then none
      else if s.data.contains '[' then none
      else if s.data.contains ']' then none
      else some (String.mk before)

/-- JSON structure for authentication, mirroring loginJSON. -/
structure LoginJSON where
  name : String
  password : String
deriving DecidableEq, Repr

/-- Inbound HTTP request, as far as the authentication subsystem inspects
it.  The body field holds the result of JSON-decoding the request body;
header and cookie lookup is by exact name. -/
structure Request where
  remoteAddr : String
  headers : List (String × String)
  cookies : List (String × String)
  basicAuth : Option (String × String)
  body : Option LoginJSON
deriving DecidableEq, Repr

/-- First value of the named header, or the empty string, as
http.Header.Get returns it. -/
def getHeader (r : Request) (name : String) : String :=
  ((r.headers.find? (fun p => p.1 == name)).map (fun p => p.2)).getD ""

/-- First cookie with the given name, as http.Request.Cookie returns it;
none models http.ErrNoCookie. -/
def getCookie (r : Request) (name : String) : Option String :=
  (r.cookies.find? (fun p => p.1 == name)).map (fun p => p.2)

/-- Name of the session cookie. -/
def sessionCookieName : String := "agh_session"

/-- Time-to-live of the session cookie in seconds, 365 days. -/
def cookieTTL : Nat := 365 * 86400

/-- Header names from httphdr used by realIP and handleLogin. -/
def hdrCFConnectingIP : String := "CF-Connecting-IP"

/-- True-Client-IP header name. -/
def hdrTrueClientIP : String := "True-Client-IP"

/-- X-Real-IP header name. -/
def hdrXRealIP : String := "X-Real-IP"

/-- X-Forwarded-For header name. -/
def hdrXForwardedFor : String := "X-Forwarded-For"

/-- Models realIP from authhttp.go: tries the single-value proxy headers in
order, then the leftmost entry of X-Forwarded-For, and finally falls back
to the host part of RemoteAddr.  Note that the source consults the proxy
headers unconditionally, with no trusted-proxy check. -/
def realIP (r : Request) : Option IPv4 :=
  match parseAddr (getHeader r hdrCFConnectingIP) with
  | some ip => some ip
  | none =>
  match parseAddr (getHeader r hdrTrueClientIP) with
  | some ip => some ip
  | none =>
  match parseAddr (getHeader r hdrXRealIP) with
  | some ip => some ip
  | none =>
  match parseAddr (String.mk (takeUntil ',' (getHeader r hdrXForwardedFor).data)) with
  | some ip => some ip
  | none => (splitHost r.remoteAddr).bind parseAddr

/-- Hex digit character for a nibble, lowercase as encoding/hex produces. -/
def hexDigitChar (n : Nat) : Char :=
  if n < 10 then Char.ofNat (48 + n) else Char.ofNat (97 + (n - 10))

/-- Models hex.EncodeToString on a byte list. -/
def hexEncode (bytes : List Nat) : String :=
  String.mk (bytes.foldr (fun b acc => hexDigitChar (b / 16 % 16) :: hexDigitChar (b % 16) :: acc) [])

/-- Value of one hex digit character, or none. -/
def hexDigitVal (c : Char) : Option Nat :=
  if '0' ≤ c && c ≤ '9' then some (c.toNat - 48)
  else if 'a' ≤ c && c ≤ 'f' then some (c.toNat - 97 + 10)
  else if 'A' ≤ c && c ≤ 'F' then some (c.toNat - 65 + 10)
  else none

/-- Models hex.DecodeString: fails on odd length or any non-hex digit. -/
def hexDecodeAux : List Char → Option (List Nat)
  | [] => some []
  | [_] => none
  | a :: b :: rest =>
    match hexDigitVal a, hexDigitVal b, hexDecodeAux rest with
    | some x, some y, some tl => some ((x * 16 + y) :: tl)
    | _, _, _ => none

/-- Hex decoding of a string to bytes. -/
def hexDecode (s : String) : Option (List Nat) := hexDecodeAux s.data

/-- Modelled from the spec: one RateLimitEntry of section 3; the rate
limiter implementation (Auth.rateLimiter) is not under src.  Times are
absolute Unix seconds. -/
structure RateLimitEntry where
  failures : Nat
  blockedUntil : Nat
deriving DecidableEq, Repr

/-- Modelled from the spec: the configured failed-attempt threshold. -/
def failedAuthLimit : Nat := 5

/-- Modelled from the spec: the block duration applied once the threshold
is crossed, in seconds. -/
def authBlockSeconds : Nat := 900

/-- Modelled from the spec: Check returns the remaining block time for the
key in whole seconds, zero when the key may attempt now. -/
def checkLimiter (l : List (String × RateLimitEntry)) (now : Nat) (key : String) : Nat :=
  match l.lookup key with
  | none => 0
  | some e => e.blockedUntil - now

/-- Modelled from the spec: RecordFailure increments the failure count for
the key and sets blockedUntil once the count reaches the threshold. -/
def incLimiter (l : List (String × RateLimitEntry)) (now : Nat) (key : String) :
    List (String × RateLimitEntry) :=
  let e := (l.lookup key).getD ⟨0, 0⟩
  let f := e.failures + 1
  let b := if failedAuthLimit ≤ f then now + authBlockSeconds else e.blockedUntil
  (key, ⟨f, b⟩) :: l.filter (fun p => !(p.1 == key))

/-- Modelled from the spec: RecordSuccess clears the entry for the key. -/
def removeLimiter (l : List (String × RateLimitEntry)) (key : String) :
    List (String × RateLimitEntry) :=
  l.filter (fun p => !(p.1 == key))

/-- Server-side session record stored by Auth.addSession; the session store
implementation is not under src and is modelled from the spec. -/
structure LoginSession where
  userName : String
  expire : Nat
deriving DecidableEq, Repr

/-- State behind globalContext.auth as handleLogin uses it.  The user
directory, session store and rate limiter are modelled from the spec
(their code is not under src); trusted mirrors the configured
TrustedProxySet, as the set of addresses it contains. -/
structure AuthState where
  users : List (String × String)
  sessions : List (List Nat × LoginSession)
  limiter : List (String × RateLimitEntry)
  trusted : List IPv4
  sessionTTL : Nat
deriving DecidableEq, Repr

/-- Modelled from the spec: the Credential Verifier behind Auth.findUser,
which is not under src.  Returns the matched user name on success. -/
def findUser (users : List (String × String)) (name password : String) : Option String :=
  match users.lookup name with
  | none => none
  | some pw => if pw == password then some name else none

/-- Calls that handleLogin and newCookie make into the rate limiter and the
credential verifier, recorded in order. -/
inductive AuthEvent where
  | check (key : String)
  | findUser (name : String)
  | inc (key : String)
  | remove (key : String)
deriving DecidableEq, Repr

/-- Rate-limiter key of an event, or none for credential-verifier calls. -/
def AuthEvent.key? : AuthEvent → Option String
  | .check k => some k
  | .inc k => some k
  | .remove k => some k
  | .findUser _ => none

/-- Keys of all rate-limiter operations in an event trace. -/
def limiterKeys (evs : List AuthEvent) : List String := evs.filterMap AuthEvent.key?

/-- Audit-log lines written by handleLogin, reduced to the IP string each
one records. -/
inductive LogEntry where
  | errorLog (ip : String)
  | successLog (ip : String)
deriving DecidableEq, Repr

/-- HTTP cookie with the attributes the code sets; expires is an absolute
Unix second. -/
structure Cookie where
  name : String
  value : String
  path : String
  expires : Nat
  httpOnly : Bool
  sameSiteLax : Bool
deriving DecidableEq, Repr

/-- Observable HTTP response: status code, headers, and an optional cookie
set via http.SetCookie or a Set-Cookie header. -/
structure Response where
  status : Nat
  headers : List (String × String)
  cookie : Option Cookie
deriving DecidableEq, Repr

/-- Models Auth.newCookie from authhttp.go: verifies the credentials,
updating the rate limiter under addr (inc on failure, remove on success),
and on success stores a session and builds the cookie.  The fresh random
token is passed in as sess since its entropy source is external; the rate
limiter is modelled as configured (non-nil).  The session expiry keeps the
uint32 truncation of the source. -/
def newCookie (st : AuthState) (now : Nat) (sess : List Nat) (req : LoginJSON) (addr : String) :
    Option Cookie × AuthState × List AuthEvent :=
  match findUser st.users req.name req.password with
  | none =>
    (none, { st with limiter := incLimiter st.limiter now addr },
     [.findUser req.name, .inc addr])
  | some uname =>
    let st1 := { st with limiter := removeLimiter st.limiter addr }
    let expire := (now % 4294967296 + st.sessionTTL) % 4294967296
    let st2 := { st1 with sessions := (sess, ⟨uname, expire⟩) :: st1.sessions }
    (some { name := sessionCookieName, value := hexEncode sess, path := "/",
            expires := now + cookieTTL, httpOnly := true, sameSiteLax := true },
     st2, [.findUser req.name, .remove addr])

/-- Result of one handleLogin call: the response, the state afterwards, the
trace of rate-limiter and credential-verifier calls, and the audit-log
lines written. -/
structure LoginResult where
  resp : Response
  state : AuthState
  events : List AuthEvent
  logs : List LogEntry
deriving DecidableEq, Repr

/-- IP string the success log prints: netip.Addr.String of the resolved
address, which is the fixed text below for the zero Addr left behind when
realIP fails. -/
def ipLogString : Option IPv4 → String
  | some a => a.toStr
  | none => "invalid IP"

/-- Headers set on a successful login response. -/
def cacheHeaders : List (String × String) :=
  [("Cache-Control", "no-store, no-cache, must-revalidate, proxy-revalidate"),
   ("Pragma", "no-cache"),
   ("Expires", "0")]

/-- Models handleLogin from authhttp.go, the POST control-login handler:
400 on a body that fails JSON decoding or a RemoteAddr whose host cannot be
split, 429 with Retry-After while the peer key is blocked, 403 on invalid
credentials, 200 with the session cookie and no-cache headers on success.
The rate limiter is always keyed by the host of RemoteAddr; realIP is used
only for logging, and the trusted-proxy check guards only the failure
log. -/
def handleLogin (st : AuthState) (now : Nat) (sess : List Nat) (r : Request) : LoginResult :=
  match r.body with
  | none => ⟨⟨400, [], none⟩, st, [], []⟩
  | some req =>
    match splitHost r.remoteAddr with
    | none => ⟨⟨400, [], none⟩, st, [], [.errorLog r.remoteAddr]⟩
    | some remoteIP =>
      let wait := checkLimiter st.limiter now remoteIP
      if 0 < wait then
        ⟨⟨429, [("Retry-After", toString wait)], none⟩, st,
         [.check remoteIP], [.errorLog remoteIP]⟩
      else
        let ip := realIP r
        match newCookie st now sess req remoteIP with
        | (none, st1, evs) =>
          let logIP :=
            match ip with
            | some a => if a ∈ st.trusted then a.toStr else remoteIP
            | none => remoteIP
          ⟨⟨403, [], none⟩, st1, .check remoteIP :: evs, [.errorLog logIP]⟩
        | (some c, st1, evs) =>
          ⟨⟨200, cacheHeaders, some c⟩, st1, .check remoteIP :: evs,
           [.successLog (ipLogString ip)]⟩

/-- Models handleLogout from authhttp.go, the GET control-logout handler.
The legacy session store keyed by the raw cookie value is not under src;
removal is Modelled from the spec: Revoke is an idempotent removal.  The
replacement cookie carries the source's time.Unix of zero as its expiry. -/
def handleLogout (sessions : List String) (r : Request) : Response × List String :=
  match getCookie r sessionCookieName with
  | none => (⟨302, [("Location", "/login.html")], none⟩, sessions)
  | some v =>
    (⟨302, [("Location", "/login.html")],
      some { name := sessionCookieName, value := "", path := "/", expires := 0,
             httpOnly := true, sameSiteLax := true }⟩,
     sessions.filter (fun t => !(t == v)))

/-- Web user of the default middleware; the aghuser package is not under
src, so the user record is modelled from the spec with its login and the
stored secret, and password verification (Password.Authenticate) is
Modelled from the spec: the external Credential Verifier, compared as an
exact secret match. -/
structure MwUser where
  login : String
  password : String
deriving DecidableEq, Repr

/-- Session record of the default middleware session storage, referring to
its user by login name. -/
structure MwSession where
  userLogin : String
deriving DecidableEq, Repr

/-- Modelled from the spec: aghuser.SessionTokenLength is not under src;
the spec requires at least 128 bits of token randomness, 16 bytes. -/
def sessionTokenLength : Nat := 16

/-- State of the default authentication middleware: the external user
directory and the web-session storage, both modelled from the spec at
their interface (All, ByLogin, FindByToken never fail). -/
structure MwState where
  users : List MwUser
  sessions : List (List Nat × MwSession)
deriving DecidableEq, Repr

/-- Errors of userFromRequest and userFromRequestBasicAuth.  The source
uses errors.ErrNoValue for absent credentials and the single generic
errInvalidLogin value for both failed-lookup and wrong-password Basic-Auth
attempts. -/
inductive UserErr where
  | noValue
  | invalidLogin
  | decodingCookie
  | badTokenLength
deriving DecidableEq, Repr

/-- Models authMiddlewareDefault.userFromRequestBasicAuth: absent
credentials give ErrNoValue; an unknown login and a wrong password both
give the same errInvalidLogin value. -/
def userFromRequestBasicAuth (st : MwState) (r : Request) : Except UserErr MwUser :=
  match r.basicAuth with
  | none => .error .noValue
  | some (login, pass) =>
    match st.users.find? (fun u => u.login == login) with
    | none => .error .invalidLogin
    | some u => if u.password == pass then .ok u else .error .invalidLogin

/-- Models authMiddlewareDefault.userFromRequest: with no session cookie it
falls back to Basic Auth; otherwise it hex-decodes the cookie, checks the
token length, and resolves the session and then the user, where a missing
session or user is the non-error none outcome. -/
def userFromRequest (st : MwState) (r : Request) : Except UserErr (Option MwUser) :=
  match getCookie r sessionCookieName with
  | none => (userFromRequestBasicAuth st r).map some
  | some v =>
    match hexDecode v with
    | none => .error .decodingCookie
    | some sess =>
      if sess.length = sessionTokenLength then
        match st.sessions.lookup sess with
        | none => .ok none
        | some s => .ok (st.users.find? (fun u => u.login == s.userLogin))
      else .error .badTokenLength

/-- Models authMiddlewareDefault.needsAuthentication: authentication is
required exactly when the user directory is non-empty. -/
def needsAuthentication (st : MwState) : Bool := !st.users.isEmpty

/-- Observable outcome of the wrapped handler: pass invokes the inner
handler, carrying the user attached to the context when one was resolved;
reject writes the status and stops. -/
inductive WrapOutcome where
  | pass (u : Option MwUser)
  | reject (status : Nat)
deriving DecidableEq, Repr

/-- Models authMiddlewareDefault.Wrap: without required authentication the
handler runs as-is; otherwise a resolved user is attached and the handler
runs, and every other outcome, error or not, becomes a plain 401. -/
def mwWrap (st : MwState) (r : Request) : WrapOutcome :=
  if needsAuthentication st = false then .pass none
  else
    match userFromRequest st r with
    | .ok (some u) => .pass (some u)
    | .ok none => .reject 401
    | .error _ => .reject 401

/-- Models getEsc from Go's path/match.go: reads one, possibly escaped,
character of a bracket range, erring exactly where the Go code reports
ErrBadPattern.  The invalid-UTF-8 branch cannot arise over characters. -/
def getEsc (chunk : List Char) : Except Unit (Char × List Char) :=
  match chunk with
  | [] => .error ()
  | c :: cs =>
    if c == '-' || c == ']' then .error ()
    else if c == '\\' then
      match cs with
      | [] => .error ()
      | d :: ds => if ds.isEmpty then .error () else .ok (d, ds)
    else if cs.isEmpty then .error () else .ok (c, cs)

/-- Models the range-parsing loop of the character-class case of Go's
matchChunk.  Every iteration consumes at least one pattern character, so
the explicit fuel, set to the chunk length plus one by its caller, never
runs out; exhaustion is reported as a pattern error, which only makes the
totality theorem stronger. -/
def matchRangesF : Nat → Char → List Char → Bool → Nat → Except Unit (List Char × Bool)
  | 0, _, _, _, _ => .error ()
  | fuel + 1, r, chunk, matched, nrange =>
    if chunk.head? == some ']' && nrange != 0 then .ok (chunk.tail, matched)
    else
      match getEsc chunk with
      | .error e => .error e
      | .ok (lo, c₁) =>
        match (if c₁.head? == some '-' then getEsc c₁.tail else .ok (lo, c₁)) with
        | .error e => .error e
        | .ok (hi, c₂) =>
          matchRangesF fuel r c₂ (matched || (decide (lo ≤ r) && decide (r ≤ hi))) (nrange + 1)

/-- Models matchChunk from Go's path/match.go over characters rather than
bytes: the failed flag, the character-class, question-mark, escape and
literal cases, erring exactly where Go reports ErrBadPattern.  Every step
consumes at least one chunk character, so the fuel chosen by matchChunkGo
never runs out. -/
def matchChunkGoF : Nat → List Char → List Char → Bool → Except Unit (List Char × Bool)
  | 0, _, _, _ => .error ()
  | _ + 1, [], s, failed => if failed then .ok ([], false) else .ok (s, true)
  | fuel + 1, c :: cs, s, failed0 =>
    let failed := failed0 || s.isEmpty
    if c == '[' then
      let r := if failed then Char.ofNat 0 else s.headD (Char.ofNat 0)
      let s₁ := if failed then s else s.tail
      let neg := cs.head? == some '^'
      let cs₁ := if neg then cs.tail else cs
      match matchRangesF (cs₁.length + 1) r cs₁ false 0 with
      | .error e => .error e
      | .ok (cs₂, m) => matchChunkGoF fuel cs₂ s₁ (failed || (m == neg))
    else if c == '?' then
      let failed₂ := failed || (s.head? == some '/')
      let s₁ := if failed then s else s.tail
      matchChunkGoF fuel cs s₁ failed₂
    else if c == '\\' then
      match cs with
      | [] => .error ()
      | d :: ds =>
        let failed₂ := failed || !(s.head? == some d)
        let s₁ := if failed then s else s.tail
        matchChunkGoF fuel ds s₁ failed₂
    else
      let failed₂ := failed || !(s.head? == some c)
      let s₁ := if failed then s else s.tail
      matchChunkGoF fuel cs s₁ failed₂

/-- Entry point of the matchChunk model, fixing the fuel at the chunk
length plus one. -/
def matchChunkGo (chunk s : List Char) (failed : Bool) : Except Unit (List Char × Bool) :=
  matchChunkGoF (chunk.length + 1) chunk s failed

/-- Models the chunk-scanning loop of scanChunk from Go's path/match.go:
stops before an unbracketed star, tracks the bracket state, and skips the
character after a backslash. -/
def scanBody (inrange : Bool) : List Char → List Char × List Char
  | [] => ([], [])
  | c :: cs =>
    if c == '*' && !inrange then ([], c :: cs)
    else if c == '\\' then
      match cs with
      | [] => ([c], [])
      | d :: ds =>
        let r := scanBody inrange ds
        (c :: d :: r.1, r.2)
    else
      let inr := if c == '[' then true else if c == ']' then false else inrange
      let r := scanBody inr cs
      (c :: r.1, r.2)

/-- Models scanChunk from Go's path/match.go: strips leading stars and
returns the star flag, the next chunk and the remaining pattern. -/
def scanChunk (pattern : List Char) : Bool × List Char × List Char :=
  let p := pattern.dropWhile (fun c => c == '*')
  let r := scanBody false p
  (pattern.head? == some '*', r.1, r.2)

mutual

/-- Models the main loop of Match from Go's path/match.go.  The fuel only
bounds the iterations: every continue strictly shrinks the pattern and
every star-loop step strictly shrinks the name, so the fuel chosen by
pathMatch never runs out; exhaustion is reported as an error, which only
makes the totality theorem stronger. -/
def matchLoopF : Nat → List Char → List Char → Except Unit Bool
  | 0, _, _ => .error ()
  | _ + 1, [], name => .ok name.isEmpty
  | fuel + 1, p₀ :: ps, name =>
    let sc := scanChunk (p₀ :: ps)
    let star := sc.1
    let chunk := sc.2.1
    let rest := sc.2.2
    if star && chunk.isEmpty then .ok (!name.contains '/')
    else
      match matchChunkGo chunk name false with
      | .error e => .error e
      | .ok (t, ok) =>
        if ok && (t.isEmpty || !rest.isEmpty) then matchLoopF fuel rest t
        else if star then starLoopF fuel chunk rest name
        else .ok false

/-- Models the star-backtracking loop of Match: tries the chunk at every
later position of the name without crossing a slash. -/
def starLoopF : Nat → List Char → List Char → List Char → Except Unit Bool
  | 0, _, _, _ => .error ()
  | _ + 1, _, _, [] => .ok false
  | fuel + 1, chunk, rest, x :: xs =>
    if x == '/' then .ok false
    else
      match matchChunkGo chunk xs false with
      | .error e => .error e
      | .ok (t, ok) =>
        if ok then
          if rest.isEmpty && !t.isEmpty then starLoopF fuel chunk rest xs
          else matchLoopF fuel rest t
        else starLoopF fuel chunk rest xs

end

/-- Models path.Match from the Go standard library, over characters.  The
fuel covers every loop iteration with room to spare. -/
def pathMatch (pattern name : String) : Except Unit Bool :=
  matchLoopF (pattern.data.length + name.data.length + 3) pattern.data name.data

/-- First pattern isPublicResource matches against. -/
def assetPattern : String := "/assets/*"

/-- Second pattern isPublicResource matches against. -/
def loginPattern : String := "/login.*"

/-- Models isPublicResource from authhttp.go; an Error result stands for
the two panic branches, taken when path.Match reports a bad pattern. -/
def isPublicResource (p : String) : Except Unit Bool :=
  match pathMatch assetPattern p with
  | .error e => .error e
  | .ok isAsset =>
    match pathMatch loginPattern p with
    | .error e => .error e
    | .ok isLogin => .ok (isAsset || isLogin)

/-! Concrete fixtures used by the witnesses and counterexamples below.
Each group of fixtures belongs to a single claim. -/

/-- Fixture state for the trust-boundary claim: no trusted proxies, one
configured user. -/
def stC1x : AuthState :=
  { users := [("admin", "secret")], sessions := [], limiter := [], trusted := [],
    sessionTTL := 86400 }

/-- Fixture request for the trust-boundary counterexample: untrusted peer
carrying a proxy header and the correct password. -/
def rC1x : Request :=
  { remoteAddr := "10.0.0.1:5000", headers := [("X-Real-IP", "1.2.3.4")], cookies := [],
    basicAuth := none, body := some ⟨"admin", "secret"⟩ }

/-- Fixture request for the trust-boundary witness: untrusted peer carrying
a proxy header and a wrong password. -/
def rC1w : Request :=
  { remoteAddr := "10.0.0.1:5000", headers := [("X-Real-IP", "1.2.3.4")], cookies := [],
    basicAuth := none, body := some ⟨"admin", "wrong"⟩ }

/-- Fixture state for the trust-boundary witness: the trusted set holds the
address a forged header will claim, while the transport peer stays
untrusted. -/
def stC1t : AuthState :=
  { users := [("admin", "secret")], sessions := [], limiter := [],
    trusted := [⟨5, 5, 5, 5⟩], sessionTTL := 86400 }

/-- Fixture request for the trust-boundary witness: untrusted peer whose
proxy header claims an address inside the trusted set, with a wrong
password. -/
def rC1t : Request :=
  { remoteAddr := "10.0.0.1:5000", headers := [("X-Real-IP", "5.5.5.5")], cookies := [],
    basicAuth := none, body := some ⟨"admin", "wrong"⟩ }

/-- Fixture state for the rate-limit-key claim. -/
def stC2w : AuthState :=
  { users := [("admin", "secret")], sessions := [], limiter := [], trusted := [],
    sessionTTL := 86400 }

/-- Fixture request for the rate-limit-key claim: untrusted peer with a
forged forwarding header and a wrong password. -/
def rC2w : Request :=
  { remoteAddr := "10.0.0.1:5000", headers := [("X-Forwarded-For", "9.9.9.9, 8.8.8.8")],
    cookies := [], basicAuth := none, body := some ⟨"admin", "wrong"⟩ }

/-- Fixture state for the blocked-login claim: the peer key is blocked
until second 60. -/
def stC3x : AuthState :=
  { users := [("admin", "secret")], sessions := [],
    limiter := [("10.0.0.1", ⟨5, 60⟩)], trusted := [], sessionTTL := 86400 }

/-- Fixture request for the blocked-login claim, carrying the correct
password. -/
def rC3x : Request :=
  { remoteAddr := "10.0.0.1:5000", headers := [], cookies := [], basicAuth := none,
    body := some ⟨"admin", "secret"⟩ }

/-- Fixture state for the blocked-skips-verifier claim. -/
def stC4w : AuthState :=
  { users := [("admin", "secret")], sessions := [],
    limiter := [("10.0.0.1", ⟨5, 60⟩)], trusted := [], sessionTTL := 86400 }

/-- Fixture request for the blocked-skips-verifier claim. -/
def rC4w : Request :=
  { remoteAddr := "10.0.0.1:5000", headers := [], cookies := [], basicAuth := none,
    body := some ⟨"admin", "secret"⟩ }

/-- Fixture state for the status-map claim: one user, one blocked key. -/
def stC5 : AuthState :=
  { users := [("admin", "secret")], sessions := [],
    limiter := [("10.0.0.2", ⟨5, 60⟩)], trusted := [], sessionTTL := 86400 }

/-- Status-map fixture: body that fails JSON decoding. -/
def rC5a : Request :=
  { remoteAddr := "10.0.0.1:5000", headers := [], cookies := [], basicAuth := none,
    body := none }

/-- Status-map fixture: unsplittable RemoteAddr. -/
def rC5b : Request :=
  { remoteAddr := "1:2:3", headers := [], cookies := [], basicAuth := none,
    body := some ⟨"admin", "secret"⟩ }

/-- Status-map fixture: blocked peer key. -/
def rC5c : Request :=
  { remoteAddr := "10.0.0.2:5000", headers := [], cookies := [], basicAuth := none,
    body := some ⟨"admin", "secret"⟩ }

/-- Status-map fixture: wrong password from an unblocked key. -/
def rC5d : Request :=
  { remoteAddr := "10.0.0.1:5000", headers := [], cookies := [], basicAuth := none,
    body := some ⟨"admin", "wrong"⟩ }

/-- Status-map fixture: correct credentials from an unblocked key. -/
def rC5e : Request :=
  { remoteAddr := "10.0.0.1:5000", headers := [], cookies := [], basicAuth := none,
    body := some ⟨"admin", "secret"⟩ }

/-- Middleware fixture: empty user directory. -/
def mwSt0 : MwState := { users := [], sessions := [] }

/-- Middleware fixture: one configured user. -/
def mwSt1 : MwState := { users := [⟨"admin", "secret"⟩], sessions := [] }

/-- Middleware fixture: request with no cookie and no Basic credentials. -/
def rMw : Request :=
  { remoteAddr := "10.0.0.1:5000", headers := [], cookies := [], basicAuth := none,
    body := none }

/-- Enumeration-safety fixture: directory holding one user. -/
def stC7 : MwState := { users := [⟨"admin", "secret"⟩], sessions := [] }

/-- Enumeration-safety fixture: Basic attempt under an unknown login. -/
def rC7a : Request :=
  { remoteAddr := "10.0.0.1:5000", headers := [], cookies := [],
    basicAuth := some ("ghost", "pw"), body := none }

/-- Enumeration-safety fixture: Basic attempt with a wrong password for an
existing login. -/
def rC7b : Request :=
  { remoteAddr := "10.0.0.1:5000", headers := [], cookies := [],
    basicAuth := some ("admin", "wrong"), body := none }

/-- Malformed-cookie fixture: one user, no sessions. -/
def stC8 : MwState := { users := [⟨"admin", "secret"⟩], sessions := [] }

/-- Malformed-cookie fixture: session cookie that is not valid hex. -/
def rC8 : Request :=
  { remoteAddr := "10.0.0.1:5000", headers := [], cookies := [("agh_session", "zz!!")],
    basicAuth := none, body := none }

/-- Malformed-cookie fixture: request with no credentials at all. -/
def rC8n : Request :=
  { remoteAddr := "10.0.0.1:5000", headers := [], cookies := [], basicAuth := none,
    body := none }

/-- Logout fixture: one stored session token. -/
def sessC9 : List String := ["deadbeef"]

/-- Logout fixture: request carrying the stored token as its session
cookie. -/
def rC9 : Request :=
  { remoteAddr := "10.0.0.1:5000", headers := [], cookies := [("agh_session", "deadbeef")],
    basicAuth := none, body := none }

/-! Theorems.  Each claim of the specification gets exactly one theorem,
with a witness or counterexample where required. -/

/-- Helper: whatever branch handleLogin takes, every rate-limiter call it
or newCookie makes is keyed by the host split out of RemoteAddr. -/
theorem handleLogin_limiterKeys (st : AuthState) (now : Nat) (sess : List Nat) (r : Request)
    (peer : String) (hsplit : splitHost r.remoteAddr = some peer) :
    ∀ k ∈ limiterKeys (handleLogin st now sess r).events, k = peer := by
  intro k hk
  unfold handleLogin at hk
  cases hb : r.body with
  | none =>
    rw [hb] at hk
    simp [limiterKeys] at hk
  | some req =>
    rw [hb, hsplit] at hk
    dsimp only at hk
    by_cases hw : 0 < checkLimiter st.limiter now peer
    · rw [if_pos hw] at hk
      simp only [limiterKeys, List.filterMap, AuthEvent.key?] at hk
      simpa using hk
    · rw [if_neg hw] at hk
      unfold newCookie at hk
      cases hf : findUser st.users req.name req.password with
      | none =>
        rw [hf] at hk
        simp only [limiterKeys] at hk
        simp [AuthEvent.key?] at hk
        exact hk
      | some uname =>
        rw [hf] at hk
        simp only [limiterKeys] at hk
        simp [AuthEvent.key?] at hk
        exact hk

/-- C2: for a login request whose peer is not trusted and whose forwarding
header claims a different address, every rate-limiter operation (check,
inc, remove) is keyed by the transport-layer peer host from RemoteAddr and
never by the header-supplied address. -/
theorem login_ratelimit_key_is_peer (st : AuthState) (now : Nat) (sess : List Nat)
    (r : Request) (peer : String) (pip hip : IPv4)
    (hsplit : splitHost r.remoteAddr = some peer)
    (hpeer : parseAddr peer = some pip) (htrust : pip ∉ st.trusted)
    (hhdr : realIP r = some hip) (hne : hip.toStr ≠ peer) :
    ∀ k ∈ limiterKeys (handleLogin st now sess r).events, k = peer ∧ k ≠ hip.toStr := by
  intro k hk
  have h := handleLogin_limiterKeys st now sess r peer hsplit k hk
  subst h
  exact ⟨rfl, fun hh => hne hh.symm⟩

/-- Witness for C2 at a concrete forged request: the only limiter key is
the peer host, not the forged forwarding address. -/
theorem login_ratelimit_key_is_peer_witness :
    "10.0.0.1" = "10.0.0.1" ∧ "10.0.0.1" ≠ "9.9.9.9" :=
  login_ratelimit_key_is_peer stC2w 0 [] rC2w "10.0.0.1" ⟨10, 0, 0, 1⟩ ⟨9, 9, 9, 9⟩
    (by decide) (by decide) (by decide) (by decide) (by decide) "10.0.0.1" (by decide)

/-- C3 (amended): while the peer key is blocked, a login request carrying
the correct password is still rejected as rate-limited with status 429 and
a Retry-After header, and no session cookie is issued; the code answers
429 here, not the 403 the claim stated. -/
theorem login_blocked_returns_429 (st : AuthState) (now : Nat) (sess : List Nat)
    (r : Request) (req : LoginJSON) (peer uname : String)
    (hbody : r.body = some req) (hsplit : splitHost r.remoteAddr = some peer)
    (hblock : 0 < checkLimiter st.limiter now peer)
    (hcred : findUser st.users req.name req.password = some uname) :
    (handleLogin st now sess r).resp.status = 429 ∧
    (handleLogin st now sess r).resp.cookie = none ∧
    ("Retry-After", toString (checkLimiter st.limiter now peer)) ∈
      (handleLogin st now sess r).resp.headers := by
  unfold handleLogin
  rw [hbody, hsplit]
  simp [hblock]

/-- Counterexample for C3 as stated: a blocked key with the correct
password gets status 429, not 403. -/
theorem login_blocked_not_403 :
    0 < checkLimiter stC3x.limiter 0 "10.0.0.1" ∧
    (findUser stC3x.users "admin" "secret").isSome = true ∧
    rC3x.body = some ⟨"admin", "secret"⟩ ∧
    (handleLogin stC3x 0 [] rC3x).resp.status = 429 ∧
    (handleLogin stC3x 0 [] rC3x).resp.status ≠ 403 := by decide

/-- Witness for C3 (amended) at the concrete blocked fixture. -/
theorem login_blocked_returns_429_witness :
    (handleLogin stC3x 0 [] rC3x).resp.status = 429 ∧
    (handleLogin stC3x 0 [] rC3x).resp.cookie = none ∧
    ("Retry-After", toString (checkLimiter stC3x.limiter 0 "10.0.0.1")) ∈
      (handleLogin stC3x 0 [] rC3x).resp.headers :=
  login_blocked_returns_429 stC3x 0 [] rC3x ⟨"admin", "secret"⟩ "10.0.0.1" "admin"
    (by decide) (by decide) (by decide) (by decide)

/-- C4: when the rate limiter reports a non-zero wait for the peer key,
handleLogin fails as rate-limited and never calls the credential
verifier. -/
theorem login_blocked_skips_verifier (st : AuthState) (now : Nat) (sess : List Nat)
    (r : Request) (req : LoginJSON) (peer : String)
    (hbody : r.body = some req) (hsplit : splitHost r.remoteAddr = some peer)
    (hblock : 0 < checkLimiter st.limiter now peer) :
    (handleLogin st now sess r).resp.status = 429 ∧
    ∀ nm, AuthEvent.findUser nm ∉ (handleLogin st now sess r).events := by
  unfold handleLogin
  rw [hbody, hsplit]
  simp [hblock]

/-- Witness for C4 at the concrete blocked fixture. -/
theorem login_blocked_skips_verifier_witness :
    (handleLogin stC4w 0 [] rC4w).resp.status = 429 ∧
    ∀ nm, AuthEvent.findUser nm ∉ (handleLogin stC4w 0 [] rC4w).events :=
  login_blocked_skips_verifier stC4w 0 [] rC4w ⟨"admin", "secret"⟩ "10.0.0.1"
    (by decide) (by decide) (by decide)

/-- C5: the full status map of the login endpoint: 400 for an undecodable
body, 400 for an unsplittable RemoteAddr, 429 with the whole-second wait in
Retry-After while blocked, 403 on invalid credentials, and 200 with the
session cookie and the no-cache headers on success. -/
theorem handleLogin_status_map (st : AuthState) (now : Nat) (sess : List Nat) (r : Request) :
    (r.body = none → (handleLogin st now sess r).resp.status = 400) ∧
    (∀ req, r.body = some req → splitHost r.remoteAddr = none →
      (handleLogin st now sess r).resp.status = 400) ∧
    (∀ req peer, r.body = some req → splitHost r.remoteAddr = some peer →
      0 < checkLimiter st.limiter now peer →
      (handleLogin st now sess r).resp.status = 429 ∧
      ("Retry-After", toString (checkLimiter st.limiter now peer)) ∈
        (handleLogin st now sess r).resp.headers) ∧
    (∀ req peer, r.body = some req → splitHost r.remoteAddr = some peer →
      checkLimiter st.limiter now peer = 0 →
      findUser st.users req.name req.password = none →
      (handleLogin st now sess r).resp.status = 403) ∧
    (∀ req peer uname, r.body = some req → splitHost r.remoteAddr = some peer →
      checkLimiter st.limiter now peer = 0 →
      findUser st.users req.name req.password = some uname →
      (handleLogin st now sess r).resp.status = 200 ∧
      (handleLogin st now sess r).resp.cookie =
        some ⟨sessionCookieName, hexEncode sess, "/", now + cookieTTL, true, true⟩ ∧
      ("Cache-Control", "no-store, no-cache, must-revalidate, proxy-revalidate") ∈
        (handleLogin st now sess r).resp.headers ∧
      ("Pragma", "no-cache") ∈ (handleLogin st now sess r).resp.headers ∧
      ("Expires", "0") ∈ (handleLogin st now sess r).resp.headers) := by
  refine ⟨?_, ?_, ?_, ?_, ?_⟩
  · intro hb
    unfold handleLogin
    rw [hb]
  · intro req hb hs
    unfold handleLogin
    rw [hb, hs]
  · intro req peer hb hs hw
    unfold handleLogin
    rw [hb, hs]
    simp [hw]
  · intro req peer hb hs hw hf
    unfold handleLogin
    rw [hb, hs]
    dsimp only
    rw [hw]
    simp only [lt_irrefl, if_false]
    unfold newCookie
    rw [hf]
  · intro req peer uname hb hs hw hf
    unfold handleLogin
    rw [hb, hs]
    dsimp only
    rw [hw]
    simp only [lt_irrefl, if_false]
    unfold newCookie
    rw [hf]
    simp [cacheHeaders]

/-- Witness for C5: each branch of the status map applied at a concrete
fixture exercising it. -/
theorem handleLogin_status_map_witness :
    (handleLogin stC5 0 [] rC5a).resp.status = 400 ∧
    (handleLogin stC5 0 [] rC5b).resp.status = 400 ∧
    (handleLogin stC5 0 [] rC5c).resp.status = 429 ∧
    (handleLogin stC5 0 [] rC5d).resp.status = 403 ∧
    (handleLogin stC5 0 [] rC5e).resp.status = 200 := by
  refine ⟨?_, ?_, ?_, ?_, ?_⟩
  · exact (handleLogin_status_map stC5 0 [] rC5a).1 (by decide)
  · exact (handleLogin_status_map stC5 0 [] rC5b).2.1 ⟨"admin", "secret"⟩ (by decide) (by decide)
  · exact ((handleLogin_status_map stC5 0 [] rC5c).2.2.1 ⟨"admin", "secret"⟩ "10.0.0.2"
      (by decide) (by decide) (by decide)).1
  · exact (handleLogin_status_map stC5 0 [] rC5d).2.2.2.1 ⟨"admin", "wrong"⟩ "10.0.0.1"
      (by decide) (by decide) (by decide) (by decide)
  · exact ((handleLogin_status_map stC5 0 [] rC5e).2.2.2.2 ⟨"admin", "secret"⟩ "10.0.0.1"
      "admin" (by decide) (by decide) (by decide) (by decide)).1

/-- C1 (amended): the rate limiter is always keyed by the transport-layer
peer host split out of RemoteAddr, never by a header-derived address.  For
the audit logs, the rate-limited log always records the peer host; the
invalid-credentials log records the header-derived realIP result exactly
when that derived address itself lies in TrustedProxySet — the code guards
on the derived address, not on the transport-layer peer — and records the
peer host otherwise; and the successful-login log records the realIP
result unconditionally, with no trust check at all.  So the claimed
if-and-only-if on the transport-layer peer holds for no log line. -/
theorem login_untrusted_header_usage (st : AuthState) (now : Nat) (sess : List Nat)
    (r : Request) (peer : String)
    (hsplit : splitHost r.remoteAddr = some peer) :
    (∀ k ∈ limiterKeys (handleLogin st now sess r).events, k = peer) ∧
    ((handleLogin st now sess r).resp.status = 429 →
      (handleLogin st now sess r).logs = [LogEntry.errorLog peer]) ∧
    ((handleLogin st now sess r).resp.status = 403 →
      (handleLogin st now sess r).logs =
        [LogEntry.errorLog
          (match realIP r with
           | some a => if a ∈ st.trusted then a.toStr else peer
           | none => peer)]) ∧
    (∀ s, LogEntry.successLog s ∈ (handleLogin st now sess r).logs →
      s = ipLogString (realIP r)) := by
  refine ⟨handleLogin_limiterKeys st now sess r peer hsplit, ?_, ?_, ?_⟩
  · intro hstat
    unfold handleLogin at hstat ⊢
    cases hb : r.body with
    | none =>
      rw [hb] at hstat
      simp at hstat
    | some req =>
      rw [hb] at hstat
      rw [hsplit] at hstat ⊢
      dsimp only at hstat ⊢
      by_cases hw : 0 < checkLimiter st.limiter now peer
      · rw [if_pos hw]
      · rw [if_neg hw] at hstat
        unfold newCookie at hstat
        cases hf : findUser st.users req.name req.password with
        | none =>
          rw [hf] at hstat
          simp at hstat
        | some uname =>
          rw [hf] at hstat
          simp at hstat
  · intro hstat
    unfold handleLogin at hstat ⊢
    cases hb : r.body with
    | none =>
      rw [hb] at hstat
      simp at hstat
    | some req =>
      rw [hb] at hstat
      rw [hsplit] at hstat ⊢
      dsimp only at hstat ⊢
      by_cases hw : 0 < checkLimiter st.limiter now peer
      · rw [if_pos hw] at hstat
        simp at hstat
      · rw [if_neg hw] at hstat ⊢
        unfold newCookie at hstat ⊢
        cases hf : findUser st.users req.name req.password with
        | none => rfl
        | some uname =>
          rw [hf] at hstat
          simp at hstat
  · intro s hs
    unfold handleLogin at hs
    cases hb : r.body with
    | none =>
      rw [hb] at hs
      simp at hs
    | some req =>
      rw [hb, hsplit] at hs
      dsimp only at hs
      by_cases hw : 0 < checkLimiter st.limiter now peer
      · rw [if_pos hw] at hs
        simp at hs
      · rw [if_neg hw] at hs
        unfold newCookie at hs
        cases hf : findUser st.users req.name req.password with
        | none =>
          rw [hf] at hs
          simp at hs
        | some uname =>
          rw [hf] at hs
          simpa using hs

/-- Counterexample for C1 as stated: with an untrusted peer and a valid
proxy header, the successful-login audit log records the header-derived
address rather than the peer host, so header-derived addresses are used for
audit logging even when the peer is not in the trusted set. -/
theorem login_success_log_uses_header_ip :
    realIP rC1x = some ⟨1, 2, 3, 4⟩ ∧
    (⟨1, 2, 3, 4⟩ : IPv4) ∉ stC1x.trusted ∧
    splitHost rC1x.remoteAddr = some "10.0.0.1" ∧
    (handleLogin stC1x 0 [] rC1x).logs = [LogEntry.successLog "1.2.3.4"] ∧
    "1.2.3.4" ≠ "10.0.0.1" := by decide

/-- Witness for C1 (amended) at two concrete failed logins: with nothing
trusted the 403 log records the peer host, and with the forged header
address itself in the trusted set the 403 log records that header-derived
address although the transport peer is untrusted. -/
theorem login_untrusted_header_usage_witness :
    (handleLogin stC1x 0 [] rC1w).logs = [LogEntry.errorLog "10.0.0.1"] ∧
    (handleLogin stC1t 0 [] rC1t).logs = [LogEntry.errorLog "5.5.5.5"] := by
  constructor
  · have h := (login_untrusted_header_usage stC1x 0 [] rC1w "10.0.0.1"
      (by decide)).2.2.1 (by decide)
    exact h.trans (by decide)
  · have h := (login_untrusted_header_usage stC1t 0 [] rC1t "10.0.0.1"
      (by decide)).2.2.1 (by decide)
    exact h.trans (by decide)

/-- C6: with an empty user directory the default middleware invokes the
wrapped handler for every request with no credentials required; as soon as
one user exists, a request with no session cookie and no valid Basic
credentials is rejected with 401 instead of reaching the handler. -/
theorem authMiddleware_bootstrap (st : MwState) :
    (st.users = [] → ∀ r, mwWrap st r = WrapOutcome.pass none) ∧
    (st.users ≠ [] → ∀ r, getCookie r sessionCookieName = none →
      (∀ u, userFromRequestBasicAuth st r ≠ Except.ok u) →
      mwWrap st r = WrapOutcome.reject 401) := by
  constructor
  · intro h r
    unfold mwWrap needsAuthentication
    rw [h]
    rfl
  · intro h r hc hb
    have hne : st.users.isEmpty = false := by
      cases hu : st.users with
      | nil => exact absurd hu h
      | cons a l => rfl
    cases hba : userFromRequestBasicAuth st r with
    | ok u => exact absurd hba (hb u)
    | error e =>
      unfold mwWrap needsAuthentication userFromRequest
      rw [hne, hc, hba]
      rfl

/-- Witness for C6: the empty directory passes a credential-free request
through; adding one user turns the same request into a 401. -/
theorem authMiddleware_bootstrap_witness :
    mwWrap mwSt0 rMw = WrapOutcome.pass none ∧
    mwWrap mwSt1 rMw = WrapOutcome.reject 401 :=
  ⟨(authMiddleware_bootstrap mwSt0).1 (by decide) rMw,
   (authMiddleware_bootstrap mwSt1).2 (by decide) rMw (by decide)
     (by intro u h; simp [userFromRequestBasicAuth, rMw] at h)⟩

/-- C7: a Basic-Auth attempt under an unknown login and one under a known
login with a wrong password produce the identical generic errInvalidLogin
value, so the outcome does not reveal whether the login exists. -/
theorem basicAuth_uniform_error (st : MwState) (r₁ r₂ : Request)
    (l₁ p₁ l₂ p₂ : String) (u : MwUser)
    (h₁ : r₁.basicAuth = some (l₁, p₁))
    (habsent : st.users.find? (fun x => x.login == l₁) = none)
    (h₂ : r₂.basicAuth = some (l₂, p₂))
    (hfound : st.users.find? (fun x => x.login == l₂) = some u)
    (hpw : u.password ≠ p₂) :
    userFromRequestBasicAuth st r₁ = Except.error UserErr.invalidLogin ∧
    userFromRequestBasicAuth st r₂ = Except.error UserErr.invalidLogin ∧
    userFromRequestBasicAuth st r₁ = userFromRequestBasicAuth st r₂ := by
  have e₁ : userFromRequestBasicAuth st r₁ = Except.error UserErr.invalidLogin := by
    unfold userFromRequestBasicAuth
    rw [h₁]
    dsimp only
    rw [habsent]
  have e₂ : userFromRequestBasicAuth st r₂ = Except.error UserErr.invalidLogin := by
    unfold userFromRequestBasicAuth
    rw [h₂]
    dsimp only
    rw [hfound]
    have : (u.password == p₂) = false := by
      cases hc : u.password == p₂ with
      | false => rfl
      | true => exact absurd (eq_of_beq hc) hpw
    simp [this]
  exact ⟨e₁, e₂, by rw [e₁, e₂]⟩

/-- Witness for C7 at a concrete directory: unknown-login and
wrong-password attempts yield the same error value. -/
theorem basicAuth_uniform_error_witness :
    userFromRequestBasicAuth stC7 rC7a = Except.error UserErr.invalidLogin ∧
    userFromRequestBasicAuth stC7 rC7b = Except.error UserErr.invalidLogin ∧
    userFromRequestBasicAuth stC7 rC7a = userFromRequestBasicAuth stC7 rC7b :=
  basicAuth_uniform_error stC7 rC7a rC7b "ghost" "pw" "admin" "wrong" ⟨"admin", "secret"⟩
    (by decide) (by decide) (by decide) (by decide) (by decide)

/-- C8: a malformed session cookie, failing hex decoding or of the wrong
decoded length, makes the default middleware reject with the same plain 401
a credential-free request receives; no distinct malformed-token outcome and
no 5xx is ever produced. -/
theorem malformed_cookie_unauthorized (st : MwState) (r r₀ : Request) (v : String)
    (husers : st.users ≠ [])
    (hc : getCookie r sessionCookieName = some v)
    (hbad : hexDecode v = none ∨ ∀ b, hexDecode v = some b → b.length ≠ sessionTokenLength)
    (h₀c : getCookie r₀ sessionCookieName = none)
    (h₀b : r₀.basicAuth = none) :
    mwWrap st r = WrapOutcome.reject 401 ∧
    mwWrap st r₀ = WrapOutcome.reject 401 ∧
    mwWrap st r = mwWrap st r₀ := by
  have hne : st.users.isEmpty = false := by
    cases hu : st.users with
    | nil => exact absurd hu husers
    | cons a l => rfl
  have e₁ : mwWrap st r = WrapOutcome.reject 401 := by
    cases hd : hexDecode v with
    | none =>
      unfold mwWrap needsAuthentication userFromRequest
      rw [hne, hc]
      dsimp only
      rw [hd]
      rfl
    | some b =>
      rcases hbad with hb | hb
      · rw [hb] at hd
        exact absurd hd (by simp)
      · have hlen : b.length ≠ sessionTokenLength := hb b hd
        unfold mwWrap needsAuthentication userFromRequest
        rw [hne, hc]
        dsimp only
        rw [hd]
        dsimp only
        rw [if_neg hlen]
        rfl
  have e₂ : mwWrap st r₀ = WrapOutcome.reject 401 := by
    unfold mwWrap needsAuthentication userFromRequest userFromRequestBasicAuth
    rw [hne, h₀c, h₀b]
    rfl
  exact ⟨e₁, e₂, by rw [e₁, e₂]⟩

/-- Witness for C8: a junk cookie value and an absent cookie produce the
same 401 at a concrete state. -/
theorem malformed_cookie_unauthorized_witness :
    mwWrap stC8 rC8 = WrapOutcome.reject 401 ∧
    mwWrap stC8 rC8n = WrapOutcome.reject 401 ∧
    mwWrap stC8 rC8 = mwWrap stC8 rC8n :=
  malformed_cookie_unauthorized stC8 rC8 rC8n "zz!!" (by decide) (by decide)
    (Or.inl (by decide)) (by decide) (by decide)

/-- C9: logout always answers 302 with Location set to the login page; when
a session cookie is present the server-side session is revoked and the
replacement cookie expires at Unix time 0, in the past; repeating the call
on the resulting state yields the identical response and state, so the
operation is idempotent and never errors. -/
theorem handleLogout_idempotent (sessions : List String) (r : Request) :
    ((handleLogout sessions r).1.status = 302 ∧
      ("Location", "/login.html") ∈ (handleLogout sessions r).1.headers) ∧
    (∀ v, getCookie r sessionCookieName = some v →
      v ∉ (handleLogout sessions r).2 ∧
      (handleLogout sessions r).1.cookie =
        some ⟨sessionCookieName, "", "/", 0, true, true⟩) ∧
    (handleLogout (handleLogout sessions r).2 r).1 = (handleLogout sessions r).1 ∧
    (handleLogout (handleLogout sessions r).2 r).2 = (handleLogout sessions r).2 := by
  refine ⟨?_, ?_, ?_, ?_⟩
  · unfold handleLogout
    cases hc : getCookie r sessionCookieName with
    | none => exact ⟨rfl, by simp⟩
    | some v => exact ⟨rfl, by simp⟩
  · intro v hv
    unfold handleLogout
    rw [hv]
    refine ⟨?_, rfl⟩
    simp
  · unfold handleLogout
    cases hc : getCookie r sessionCookieName with
    | none => rfl
    | some v => rfl
  · unfold handleLogout
    cases hc : getCookie r sessionCookieName with
    | none => rfl
    | some v =>
      dsimp only
      rw [List.filter_filter]
      simp

/-- Witness for C9: revoking the stored token empties the store and the
replacement cookie is the expired one. -/
theorem handleLogout_idempotent_witness :
    "deadbeef" ∉ (handleLogout sessC9 rC9).2 ∧
    (handleLogout sessC9 rC9).1.cookie =
      some ⟨sessionCookieName, "", "/", 0, true, true⟩ :=
  (handleLogout_idempotent sessC9 rC9).2.1 "deadbeef" (by decide)

/-- Helper: an Except value whose isOk flag is set is an ok value. -/
theorem exists_ok_of_isOk {ε α : Type} {x : Except ε α} (h : x.isOk = true) :
    ∃ b, x = Except.ok b := by
  cases x with
  | ok b => exact ⟨b, rfl⟩
  | error e => exact absurd h (by simp [Except.isOk, Except.toBool])

/-- Helper: a chunk without character classes or escapes never produces a
pattern error, whatever the name and failed flag, as long as the fuel
exceeds the chunk length. -/
theorem matchChunkGoF_clean_ok :
    ∀ (fuel : Nat) (chunk : List Char), chunk.length < fuel →
      chunk.all (fun c => !(c == '[') && !(c == '\\')) = true →
      ∀ (s : List Char) (f : Bool), ∃ t b, matchChunkGoF fuel chunk s f = Except.ok (t, b) := by
  intro fuel
  induction fuel with
  | zero =>
    intro chunk hlen
    exact absurd hlen (Nat.not_lt_zero _)
  | succ n ih =>
    intro chunk hlen hclean s f
    cases chunk with
    | nil =>
      cases f with
      | false => exact ⟨s, true, rfl⟩
      | true => exact ⟨[], false, rfl⟩
    | cons c cs =>
      rw [List.all_cons, Bool.and_eq_true, Bool.and_eq_true] at hclean
      obtain ⟨⟨hc1, hc2⟩, hcs⟩ := hclean
      rw [Bool.not_eq_true'] at hc1 hc2
      have hlt : cs.length < n := by
        rw [List.length_cons] at hlen
        omega
      simp only [matchChunkGoF]
      rw [hc1]
      simp only [Bool.false_eq_true, if_false]
      by_cases hq : (c == '?') = true
      · rw [hq]
        simp only [if_true]
        exact ih cs hlt hcs _ _
      · rw [if_neg hq, hc2]
        simp only [Bool.false_eq_true, if_false]
        exact ih cs hlt hcs _ _

/-- Helper: the clean-chunk lemma at the fuel matchChunkGo fixes. -/
theorem matchChunkGo_clean_ok (chunk : List Char)
    (hclean : chunk.all (fun c => !(c == '[') && !(c == '\\')) = true)
    (s : List Char) (f : Bool) : ∃ t b, matchChunkGo chunk s f = Except.ok (t, b) :=
  matchChunkGoF_clean_ok (chunk.length + 1) chunk (Nat.lt_succ_self _) hclean s f

/-- Helper: a trailing lone star pattern always answers without error. -/
theorem matchLoopF_star_ok (fuel : Nat) (t : List Char) :
    (matchLoopF (fuel + 1) (['*']) t).isOk = true := rfl

/-- Helper: matching the asset pattern never errs, whatever the name. -/
theorem matchLoopF_assets_ok (k : Nat) (s : List Char) :
    (matchLoopF (k + 2) assetPattern.data s).isOk = true := by
  obtain ⟨t, b, hmc⟩ := matchChunkGo_clean_ok ("/assets/".data) (by decide) s false
  have hred : matchLoopF (k + 2) assetPattern.data s =
      (match matchChunkGo ("/assets/".data) s false with
       | Except.error e => Except.error e
       | Except.ok (t, ok) =>
         if ok && (t.isEmpty || !(['*'] : List Char).isEmpty) then matchLoopF (k + 1) ['*'] t
         else Except.ok false) := rfl
  rw [hred, hmc]
  cases b with
  | true =>
    simp only [Bool.true_and, List.isEmpty_cons, Bool.not_false, Bool.or_true, if_true]
    exact matchLoopF_star_ok k t
  | false => rfl

/-- Helper: matching the login pattern never errs, whatever the name. -/
theorem matchLoopF_login_ok (k : Nat) (s : List Char) :
    (matchLoopF (k + 2) loginPattern.data s).isOk = true := by
  obtain ⟨t, b, hmc⟩ := matchChunkGo_clean_ok ("/login.".data) (by decide) s false
  have hred : matchLoopF (k + 2) loginPattern.data s =
      (match matchChunkGo ("/login.".data) s false with
       | Except.error e => Except.error e
       | Except.ok (t, ok) =>
         if ok && (t.isEmpty || !(['*'] : List Char).isEmpty) then matchLoopF (k + 1) ['*'] t
         else Except.ok false) := rfl
  rw [hred, hmc]
  cases b with
  | true =>
    simp only [Bool.true_and, List.isEmpty_cons, Bool.not_false, Bool.or_true, if_true]
    exact matchLoopF_star_ok k t
  | false => rfl

/-- C10: on every input path isPublicResource terminates with a boolean:
both constant patterns are valid, so the path.Match model never reports a
bad pattern and neither panic branch is reachable from request handling. -/
theorem isPublicResource_total (p : String) : (isPublicResource p).isOk = true := by
  have ha : (pathMatch assetPattern p).isOk = true :=
    matchLoopF_assets_ok (assetPattern.data.length + p.data.length + 1) p.data
  have hl : (pathMatch loginPattern p).isOk = true :=
    matchLoopF_login_ok (loginPattern.data.length + p.data.length + 1) p.data
  obtain ⟨b1, hb1⟩ := exists_ok_of_isOk ha
  obtain ⟨b2, hb2⟩ := exists_ok_of_isOk hl
  unfold isPublicResource
  rw [hb1, hb2]
  rfl

end AdGuard
